import Mathlib

/-!
Verification of GDevelop Core's events code generator
(`Core/GDCore/Events/CodeGeneration/EventsCodeGenerator.cpp`).

Strings (`gd::String`) are modelled as lists of characters. Each definition
is a direct translation of the corresponding C++ function; collaborator
code that lives outside the translated file (virtual hooks implemented in
headers, the `gd::String` utility functions, the object registries) is
modelled from its documented behavior and marked as such.
-/

/-- A `gd::String`, modelled as its list of characters. -/
abbrev GdString := List Char

/-- Shorthand turning a Lean string literal into a `GdString`. -/
def str (s : String) : GdString := s.toList

/-- Modelled from the spec: `gd::String::FindAndReplace` (not part of the
translated file) replaces every occurrence of `pat` left to right, without
re-scanning the emitted replacement text. -/
def findAndReplace (pat rep : GdString) : GdString → GdString
  | [] => []
  | c :: rest =>
    if pat.isPrefixOf (c :: rest) ∧ pat ≠ [] then
      rep ++ findAndReplace pat rep (rest.drop (pat.length - 1))
    else
      c :: findAndReplace pat rep rest
termination_by s => s.length
decreasing_by
  · simp only [List.length_cons, List.length_drop]
    omega
  · simp only [List.length_cons]
    omega

/-- `EventsCodeGenerator::ConvertToString`: escape backslash, carriage
return, line feed and double quote, in that order (backslash first). -/
def ConvertToString (plainString : GdString) : GdString :=
  findAndReplace (str "\"") (str "\\\"")
    (findAndReplace (str "\n") (str "\\n")
      (findAndReplace (str "\r") (str "\\r")
        (findAndReplace (str "\\") (str "\\\\") plainString)))

/-- `EventsCodeGenerator::ConvertToStringExplicit`: escaped and quoted. -/
def ConvertToStringExplicit (plainString : GdString) : GdString :=
  str "\"" ++ ConvertToString plainString ++ str "\""

/-- Character-by-character replacement (the shape `findAndReplace` takes on
single-character patterns). -/
def replaceEach (e : Char → GdString) : GdString → GdString
  | [] => []
  | c :: t => e c ++ replaceEach e t

/-- Per-character form of the first escaping pass (backslash). -/
def escBackslash (c : Char) : GdString := if c = '\\' then str "\\\\" else [c]

/-- Per-character form of the second escaping pass (carriage return). -/
def escCr (c : Char) : GdString := if c = '\r' then str "\\r" else [c]

/-- Per-character form of the third escaping pass (line feed). -/
def escLf (c : Char) : GdString := if c = '\n' then str "\\n" else [c]

/-- Per-character form of the fourth escaping pass (double quote). -/
def escQuote (c : Char) : GdString := if c = '"' then str "\\\"" else [c]

/-- The per-character escaping that the four passes of `ConvertToString`
amount to. -/
def escChar (c : Char) : GdString :=
  if c = '\\' then str "\\\\"
  else if c = '\r' then str "\\r"
  else if c = '\n' then str "\\n"
  else if c = '"' then str "\\\""
  else [c]

/-- A string is escaped-wellformed when every backslash starts one of the
four escape pairs and no double quote occurs outside such a pair. -/
def escapedOk : GdString → Bool
  | [] => true
  | c :: [] => !(c == '\\') && !(c == '"')
  | c :: d :: t =>
    if c = '\\' then (d == '\\' || d == 'r' || d == 'n' || d == '"') && escapedOk t
    else if c = '"' then false
    else escapedOk (d :: t)

/-- `gd::ParameterMetadata`: the fields the translated code reads. -/
structure ParameterMetadata where
  type : GdString
  supplementaryInformation : GdString
deriving DecidableEq, Inhabited

/-- The access kinds of `gd::InstructionMetadata::ExtraInformation`. -/
inductive AccessType where
  | Reference
  | MutatorAndOrAccessor
  | Mutators
deriving DecidableEq, Inhabited

/-- `gd::InstructionMetadata::ExtraInformation`: the fields the translated
code reads. The mutator name table (`std::map`) is an association list. -/
structure ExtraInformation where
  type : GdString
  accessType : AccessType
  functionCallName : GdString
  optionalAssociatedInstruction : GdString
  optionalMutators : List (GdString × GdString)
deriving DecidableEq, Inhabited

/-- `gd::InstructionMetadata`: the fields the translated code reads. -/
structure InstructionMetadata where
  parameters : List ParameterMetadata
  codeExtraInformation : ExtraInformation
deriving DecidableEq, Inhabited

/-- The operator-position scan shared by all call builders: the last index at
or after `startFrom` whose declared parameter type is `target`, or
`parameters.length` when there is none. -/
def scanOperatorIndex (parameters : List ParameterMetadata) (target : GdString)
    (startFrom : Nat) : Nat :=
  (List.range parameters.length).foldl
    (fun idx i =>
      if startFrom ≤ i ∧ (parameters.getD i default).type = target then i else idx)
    parameters.length

/-- The argument-joining loop shared by the call builders: arguments from
`startFrom` onwards, skipping the operator position and the value position,
each one preceded by a comma separator when the accumulator is nonempty. -/
def joinArgsSkipping (arguments : List GdString) (startFrom operatorIndex : Nat) :
    GdString :=
  (List.range arguments.length).foldl
    (fun acc i =>
      if startFrom ≤ i ∧ i ≠ operatorIndex ∧ i ≠ operatorIndex + 1 then
        (if acc = [] then acc else acc ++ str ", ") ++ arguments.getD i []
      else acc)
    []

/-- The quote-stripping snippet each call builder applies to its operator
argument: `substr(1, length - 1 - 1)` whenever the length exceeds two. -/
def stripOperator (operatorStr : GdString) : GdString :=
  if operatorStr.length > 2 then (operatorStr.drop 1).take (operatorStr.length - 1 - 1)
  else operatorStr

/-- `EventsCodeGenerator::GenerateRelationalOperatorCall`. The second
component is the error flag raised by `ReportError`. -/
def GenerateRelationalOperatorCall (instrInfos : InstructionMetadata)
    (arguments : List GdString) (callStartString : GdString)
    (startFromArgument : Nat) : GdString × Bool :=
  let relationalOperatorIndex :=
    scanOperatorIndex instrInfos.parameters (str "relationalOperator") startFromArgument
  if relationalOperatorIndex + 1 ≥ instrInfos.parameters.length then ([], true)
  else
    let relationalOperator := stripOperator (arguments.getD relationalOperatorIndex [])
    let rhs := arguments.getD (relationalOperatorIndex + 1) []
    let argumentsStr := joinArgsSkipping arguments startFromArgument relationalOperatorIndex
    (callStartString ++ str "(" ++ argumentsStr ++ str ") " ++ relationalOperator ++
      str " " ++ rhs, false)

/-- `EventsCodeGenerator::GenerateOperatorCall`. The second component is the
error flag raised by `ReportError`. -/
def GenerateOperatorCall (instrInfos : InstructionMetadata)
    (arguments : List GdString) (callStartString getterStartString : GdString)
    (startFromArgument : Nat) : GdString × Bool :=
  let operatorIndex :=
    scanOperatorIndex instrInfos.parameters (str "operator") startFromArgument
  if operatorIndex + 1 ≥ instrInfos.parameters.length then ([], true)
  else
    let operatorStr := stripOperator (arguments.getD operatorIndex [])
    let rhs := arguments.getD (operatorIndex + 1) []
    let getterArgumentsStr := joinArgsSkipping arguments startFromArgument operatorIndex
    let argumentsStr :=
      (List.range arguments.length).foldl
        (fun acc i =>
          let acc1 :=
            if startFromArgument ≤ i ∧ i ≠ operatorIndex ∧ i ≠ operatorIndex + 1 then
              (if acc = [] then acc else acc ++ str ", ") ++ arguments.getD i []
            else acc
          if startFromArgument ≤ i ∧ i = operatorIndex + 1 then
            (if acc1 = [] then acc1 else acc1 ++ str ", ") ++
              (if operatorStr ≠ str "=" then
                getterStartString ++ str "(" ++ getterArgumentsStr ++ str ") " ++
                  operatorStr ++ str " (" ++ rhs ++ str ")"
              else rhs)
          else acc1)
        []
    (callStartString ++ str "(" ++ argumentsStr ++ str ")", false)

/-- `EventsCodeGenerator::GenerateCompoundOperatorCall`. The second component
is the error flag raised by `ReportError`. -/
def GenerateCompoundOperatorCall (instrInfos : InstructionMetadata)
    (arguments : List GdString) (callStartString : GdString)
    (startFromArgument : Nat) : GdString × Bool :=
  let operatorIndex :=
    scanOperatorIndex instrInfos.parameters (str "operator") startFromArgument
  if operatorIndex + 1 ≥ instrInfos.parameters.length then ([], true)
  else
    let operatorStr0 := stripOperator (arguments.getD operatorIndex [])
    let rhs := arguments.getD (operatorIndex + 1) []
    let operatorStr :=
      if operatorStr0 = str "+" then str "+="
      else if operatorStr0 = str "-" then str "-="
      else if operatorStr0 = str "/" then str "/="
      else if operatorStr0 = str "*" then str "*="
      else operatorStr0
    let argumentsStr := joinArgsSkipping arguments startFromArgument operatorIndex
    (callStartString ++ str "(" ++ argumentsStr ++ str ") " ++ operatorStr ++
      str " (" ++ rhs ++ str ")", false)

/-- `EventsCodeGenerator::GenerateMutatorCall`. The second component is the
error flag raised by `ReportError`. -/
def GenerateMutatorCall (instrInfos : InstructionMetadata)
    (arguments : List GdString) (callStartString : GdString)
    (startFromArgument : Nat) : GdString × Bool :=
  let operatorIndex :=
    scanOperatorIndex instrInfos.parameters (str "operator") startFromArgument
  if operatorIndex + 1 ≥ instrInfos.parameters.length then ([], true)
  else
    let operatorStr := stripOperator (arguments.getD operatorIndex [])
    match instrInfos.codeExtraInformation.optionalMutators.find?
        (fun m => m.1 == operatorStr) with
    | none => ([], true)
    | some mutator =>
        let rhs := arguments.getD (operatorIndex + 1) []
        let argumentsStr := joinArgsSkipping arguments startFromArgument operatorIndex
        (callStartString ++ str "(" ++ argumentsStr ++ str ")." ++ mutator.2 ++
          str "(" ++ rhs ++ str ")", false)

/-- `EventsCodeGenerator::GenerateArgumentsList`. -/
def GenerateArgumentsList (arguments : List GdString) (startFrom : Nat) : GdString :=
  (List.range arguments.length).foldl
    (fun acc i =>
      if startFrom ≤ i then
        (if acc = [] then acc else acc ++ str ", ") ++ arguments.getD i []
      else acc)
    []

/-- Arguments a call builder keeps: those from `startFrom` onwards at
neither the operator position nor the value position. -/
def selectedArgs (arguments : List GdString) (startFrom operatorIndex : Nat) :
    List GdString :=
  ((List.range arguments.length).filter
      (fun i => decide (startFrom ≤ i ∧ i ≠ operatorIndex ∧ i ≠ operatorIndex + 1))).map
    (fun i => arguments.getD i [])

/-- `EventsCodeGenerator::GenerateFreeAction` (the generation context is
unused by the translated body and therefore omitted). The second component
is the error flag raised by `ReportError` inside the call builders. -/
def GenerateFreeAction (arguments : List GdString)
    (instrInfos : InstructionMetadata) : GdString × Bool :=
  let callPair :=
    if instrInfos.codeExtraInformation.type = str "number" ∨
        instrInfos.codeExtraInformation.type = str "string" then
      if instrInfos.codeExtraInformation.accessType =
          AccessType.MutatorAndOrAccessor then
        GenerateOperatorCall instrInfos arguments
          instrInfos.codeExtraInformation.functionCallName
          instrInfos.codeExtraInformation.optionalAssociatedInstruction 0
      else if instrInfos.codeExtraInformation.accessType = AccessType.Mutators then
        GenerateMutatorCall instrInfos arguments
          instrInfos.codeExtraInformation.functionCallName 0
      else
        GenerateCompoundOperatorCall instrInfos arguments
          instrInfos.codeExtraInformation.functionCallName 0
    else
      (instrInfos.codeExtraInformation.functionCallName ++ str "(" ++
        GenerateArgumentsList arguments 0 ++ str ")", false)
  (callPair.1 ++ str ";\n", callPair.2)

/-- The compound-assignment operator mapping as the spec states it: `+`,
`-`, `*`, `/` become `+=`, `-=`, `*=`, `/=`, and any other token - in
particular a literal `=` - is left unchanged. -/
def specCompoundAssignMap (tok : GdString) : GdString :=
  if tok = str "+" then str "+="
  else if tok = str "-" then str "-="
  else if tok = str "/" then str "/="
  else if tok = str "*" then str "*="
  else tok

/-- Metadata of the free number-type compound-access action of the C7
scenario: an operator parameter then a value parameter, call name `Set`. -/
def compoundScenarioInstr : InstructionMetadata :=
  ⟨[⟨str "operator", []⟩, ⟨str "expression", []⟩],
    ⟨str "number", AccessType.Reference, str "Set", [], []⟩⟩

/-- Metadata with a relational-operator parameter then a value parameter. -/
def relationalTestInstr : InstructionMetadata :=
  ⟨[⟨str "relationalOperator", []⟩, ⟨str "expression", []⟩],
    ⟨str "number", AccessType.Reference, str "Get", [], []⟩⟩

/-- Metadata with an operator parameter, a value parameter, and a mutator
name table mapping the token `b` to `SetB`. -/
def mutatorTestInstr : InstructionMetadata :=
  ⟨[⟨str "operator", []⟩, ⟨str "expression", []⟩],
    ⟨str "number", AccessType.Mutators, str "Set", [], [(str "b", str "SetB")]⟩⟩

/-- Metadata with an operator parameter and a value parameter but an empty
mutator name table. -/
def emptyMutatorTestInstr : InstructionMetadata :=
  ⟨[⟨str "operator", []⟩, ⟨str "expression", []⟩],
    ⟨str "number", AccessType.Mutators, str "Set", [], []⟩⟩

/-- On a finite taken set there is always a free value at or above `base`
(this is what makes the C++ `while (taken.contains(uniqueId)) uniqueId++;`
loop terminate). -/
def freeIdExists (base : Nat) (instructionUniqueIds : Finset Nat) :
    ∃ k, base + k ∉ instructionUniqueIds := by
  refine ⟨instructionUniqueIds.sup id + 1, fun hmem => ?_⟩
  have hle : id (base + (instructionUniqueIds.sup id + 1)) ≤
      instructionUniqueIds.sup id := Finset.le_sup hmem
  simp only [id_eq] at hle
  omega

/-- `EventsCodeGenerator::GenerateSingleUsageUniqueIdFor`: `base` is the
instruction node's identity (its address in the C++ code), and
`instructionUniqueIds` the run's taken set. The `while` loop increments
from `base` until the value is unused, i.e. returns the least free value at
or above `base`, and records it. The null-pointer case only prints a
diagnostic in C++ and still allocates, so it needs no separate modelling. -/
def GenerateSingleUsageUniqueIdFor (base : Nat)
    (instructionUniqueIds : Finset Nat) : Nat × Finset Nat :=
  let uniqueId := base + Nat.find (freeIdExists base instructionUniqueIds)
  (uniqueId, insert uniqueId instructionUniqueIds)

/-- Modelled from the spec: a `gd::ObjectGroup`, a named ordered list of
member object names (`GetAllObjectsNames`). -/
structure ObjectGroup where
  name : GdString
  members : List GdString
deriving DecidableEq, Inhabited

/-- Modelled from the spec: the name-keyed registries of
`gd::ObjectsContainer` (objects as name/type pairs, plus the
`ObjectGroupsContainer`), consulted read-only during compilation. -/
structure ObjectsContainer where
  objects : List (GdString × GdString)
  groups : List ObjectGroup
deriving DecidableEq, Inhabited

/-- `ObjectsContainer::HasObjectNamed`. -/
def hasObjectNamed (c : ObjectsContainer) (name : GdString) : Bool :=
  c.objects.any (fun o => o.1 == name)

/-- `ObjectGroupsContainer::Has` on a container's groups. -/
def groupsHas (c : ObjectsContainer) (name : GdString) : Bool :=
  c.groups.any (fun g => g.name == name)

/-- `ObjectGroupsContainer::Get(name).GetAllObjectsNames()` on a
container's groups. -/
def groupsGetAllObjectsNames (c : ObjectsContainer) (name : GdString) :
    List GdString :=
  match c.groups.find? (fun g => g.name == name) with
  | some g => g.members
  | none => []

/-- Modelled from the spec: the only part of
`gd::EventsCodeGenerationContext` the resolver reads, the current object
(the empty string when no per-object iteration is in progress). -/
structure EventsCodeGenerationContext where
  currentObject : GdString
deriving DecidableEq, Inhabited

/-- `EventsCodeGenerator::ExpandObjectsName`: resolve the name through the
group registries (the global one first, then the layout one, else a literal
object name), collapse the expansion to the context's current object when
it is among it, then keep only names existing in either object registry. -/
def ExpandObjectsName (globalObjectsAndGroups objectsAndGroups : ObjectsContainer)
    (objectName : GdString) (context : EventsCodeGenerationContext) :
    List GdString :=
  let realObjects :=
    if groupsHas globalObjectsAndGroups objectName then
      groupsGetAllObjectsNames globalObjectsAndGroups objectName
    else if groupsHas objectsAndGroups objectName then
      groupsGetAllObjectsNames objectsAndGroups objectName
    else [objectName]
  let realObjects2 :=
    if context.currentObject ∈ realObjects then [context.currentObject]
    else realObjects
  realObjects2.filter
    (fun o => hasObjectNamed objectsAndGroups o || hasObjectNamed globalObjectsAndGroups o)

/-- The group-resolution step of `ExpandObjectsName`, named for the
refinement statements: global registry first, then local, else literal. -/
def resolveGroupMembers (globalC localC : ObjectsContainer) (name : GdString) :
    List GdString :=
  if groupsHas globalC name then groupsGetAllObjectsNames globalC name
  else if groupsHas localC name then groupsGetAllObjectsNames localC name
  else [name]

/-- The post-processing step of `ExpandObjectsName`, named for the
refinement statements: current-object collapse, then existence filter. -/
def expandPostprocess (globalC localC : ObjectsContainer)
    (context : EventsCodeGenerationContext) (realObjects : List GdString) :
    List GdString :=
  (if context.currentObject ∈ realObjects then [context.currentObject]
   else realObjects).filter
    (fun o => hasObjectNamed localC o || hasObjectNamed globalC o)

/-- A project-scope container for the C2 counterexample: objects `A`, `B`
and a group `G` whose only member is `B`. -/
def cexGlobalContainer : ObjectsContainer :=
  ⟨[(str "A", str "type"), (str "B", str "type")], [⟨str "G", [str "B"]⟩]⟩

/-- A layout-scope container for the C2 counterexample: a group `G` whose
only member is `A`. -/
def cexLocalContainer : ObjectsContainer :=
  ⟨[], [⟨str "G", [str "A"]⟩]⟩

/-- The collaborator hooks `GenerateParameterCodes` dispatches through:
the metadata-layer classifiers (`ParameterMetadata::IsExpression`,
`IsObject`, `IsBehavior`), the external expression code generator, the
virtual `GenerateObject`, and the boolean literals `GenerateTrue` and
`GenerateFalse` - all implemented outside the translated file. -/
structure GenCallbacks where
  isExpression : GdString → GdString → Bool
  isObject : GdString → Bool
  isBehavior : GdString → Bool
  generateExpressionCode : GdString → GdString → GdString
  generateVariableExpressionCode : GdString → GdString → GdString → GdString
  generateObject : GdString → GdString → GdString
  generateTrue : GdString
  generateFalse : GdString

/-- `EventsCodeGenerator::GenerateParameterCodes`: type-directed dispatch
on the parameter metadata, with the supplementary types table consulted in
the fallback branch. -/
def GenerateParameterCodes (cb : GenCallbacks) (parameter : GdString)
    (metadata : ParameterMetadata) (lastObjectName : GdString)
    (supplementaryParametersTypes : List (GdString × GdString)) : GdString :=
  if cb.isExpression (str "number") metadata.type then
    cb.generateExpressionCode (str "number") parameter
  else if cb.isExpression (str "string") metadata.type then
    cb.generateExpressionCode (str "string") parameter
  else if cb.isExpression (str "variable") metadata.type then
    cb.generateVariableExpressionCode metadata.type parameter lastObjectName
  else if cb.isObject metadata.type then
    cb.generateObject parameter metadata.type
  else if metadata.type = str "relationalOperator" then
    let argOutput := if parameter = str "=" then str "==" else parameter
    let argOutput2 :=
      if argOutput ≠ str "==" ∧ argOutput ≠ str "<" ∧ argOutput ≠ str ">" ∧
          argOutput ≠ str "<=" ∧ argOutput ≠ str ">=" ∧ argOutput ≠ str "!=" then
        str "=="
      else argOutput
    str "\"" ++ argOutput2 ++ str "\""
  else if metadata.type = str "operator" then
    let argOutput :=
      if parameter ≠ str "=" ∧ parameter ≠ str "+" ∧ parameter ≠ str "-" ∧
          parameter ≠ str "/" ∧ parameter ≠ str "*" then
        str "="
      else parameter
    str "\"" ++ argOutput ++ str "\""
  else if cb.isBehavior metadata.type then
    ConvertToStringExplicit parameter
  else if metadata.type = str "key" then
    str "\"" ++ ConvertToString parameter ++ str "\""
  else if metadata.type = str "audioResource" ∨
      metadata.type = str "bitmapFontResource" ∨
      metadata.type = str "fontResource" ∨
      metadata.type = str "imageResource" ∨
      metadata.type = str "jsonResource" ∨
      metadata.type = str "videoResource" ∨
      metadata.type = str "password" ∨ metadata.type = str "musicfile" ∨
      metadata.type = str "soundfile" ∨ metadata.type = str "police" then
    str "\"" ++ ConvertToString parameter ++ str "\""
  else if metadata.type = str "mouse" then
    str "\"" ++ ConvertToString parameter ++ str "\""
  else if metadata.type = str "yesorno" then
    if parameter = str "yes" ∨ parameter = str "oui" then cb.generateTrue
    else cb.generateFalse
  else if metadata.type = str "trueorfalse" then
    if parameter = str "True" ∨ parameter = str "Vrai" then cb.generateTrue
    else cb.generateFalse
  else if metadata.type = str "inlineCode" then
    metadata.supplementaryInformation
  else
    let fromTable :=
      supplementaryParametersTypes.foldl
        (fun acc p => if p.1 = metadata.type then acc ++ p.2 else acc) []
    if fromTable = [] then str "\"" ++ ConvertToString parameter ++ str "\""
    else fromTable

/-- Modelled from the spec: concrete collaborator callbacks whose
classifiers, like the metadata layer's, do not treat `relationalOperator`
or `operator` as expression, object or behavior kinds. -/
def testCallbacks : GenCallbacks :=
  ⟨fun _ _ => false, fun _ => false, fun _ => false,
    fun _ p => p, fun _ p _ => p, fun p _ => p, str "true", str "false"⟩

/-- The relational-operator normalization actually performed: no quote
stripping; `=` becomes `==`; tokens outside the closed set fall back to
`==`. -/
def specRelationalNormalize (parameter : GdString) : GdString :=
  let t := if parameter = str "=" then str "==" else parameter
  if t = str "==" ∨ t = str "<" ∨ t = str ">" ∨ t = str "<=" ∨ t = str ">=" ∨
      t = str "!=" then t
  else str "=="

/-- The operator normalization actually performed: no quote stripping;
tokens outside the closed set fall back to `=`. -/
def specOperatorNormalize (parameter : GdString) : GdString :=
  if parameter = str "=" ∨ parameter = str "+" ∨ parameter = str "-" ∨
      parameter = str "/" ∨ parameter = str "*" then parameter
  else str "="

/-- Modelled from the spec: the base `GenerateNegatedPredicat` hook
(implemented in the class header, outside the translated file) wraps the
final boolean expression in logical negation. -/
def GenerateNegatedPredicat (predicat : GdString) : GdString :=
  str "!(" ++ predicat ++ str ")"

/-- Modelled from the spec: `GetObjectListName` delegates to the events
code name mangler (outside the translated file); modelled as the identity
on names, on which no claim here depends. -/
def GetObjectListName (name : GdString) : GdString := name

/-- `gd::ObjectMetadata`: the field the translated condition code reads. -/
structure ObjectMetadata where
  className : GdString
deriving DecidableEq, Inhabited

/-- The predicate built by `GenerateFreeCondition` before inversion: a
relational call for number/string conditions, a plain call otherwise. -/
def freeConditionPredicat (arguments : List GdString)
    (instrInfos : InstructionMetadata) : GdString × Bool :=
  if instrInfos.codeExtraInformation.type = str "number" ∨
      instrInfos.codeExtraInformation.type = str "string" then
    GenerateRelationalOperatorCall instrInfos arguments
      instrInfos.codeExtraInformation.functionCallName 0
  else
    (instrInfos.codeExtraInformation.functionCallName ++ str "(" ++
      GenerateArgumentsList arguments 0 ++ str ")", false)

/-- `EventsCodeGenerator::GenerateFreeCondition`: the outer negation is
skipped when the metadata declares a `conditionInverted` parameter. The
second component is the error flag raised inside the relational builder. -/
def GenerateFreeCondition (arguments : List GdString)
    (instrInfos : InstructionMetadata) (returnBoolean : GdString)
    (conditionInverted : Bool) : GdString × Bool :=
  let pred := freeConditionPredicat arguments instrInfos
  let conditionAlreadyTakeCareOfInversion :=
    instrInfos.parameters.any (fun p => p.type == str "conditionInverted")
  let predicat :=
    if !conditionAlreadyTakeCareOfInversion && conditionInverted then
      GenerateNegatedPredicat pred.1
    else pred.1
  (returnBoolean ++ str " = " ++ predicat ++ str ";\n", pred.2)

/-- The predicate built by `GenerateObjectCondition` before inversion,
including the optional `static_cast` call-name part. -/
def objectConditionPredicat (objectName : GdString) (objInfo : ObjectMetadata)
    (arguments : List GdString) (instrInfos : InstructionMetadata) :
    GdString × Bool :=
  let objectFunctionCallNamePart :=
    if (instrInfos.parameters.getD 0 default).supplementaryInformation ≠ [] then
      str "static_cast<" ++ objInfo.className ++ str "*>(" ++
        GetObjectListName objectName ++ str "[i])->" ++
        instrInfos.codeExtraInformation.functionCallName
    else
      GetObjectListName objectName ++ str "[i]->" ++
        instrInfos.codeExtraInformation.functionCallName
  if instrInfos.codeExtraInformation.type = str "number" ∨
      instrInfos.codeExtraInformation.type = str "string" then
    GenerateRelationalOperatorCall instrInfos arguments
      objectFunctionCallNamePart 1
  else
    (objectFunctionCallNamePart ++ str "(" ++ GenerateArgumentsList arguments 1 ++
      str ")", false)

/-- `EventsCodeGenerator::GenerateObjectCondition`: the negation is applied
whenever the inverted flag is set, with no `conditionInverted` check. -/
def GenerateObjectCondition (objectName : GdString) (objInfo : ObjectMetadata)
    (arguments : List GdString) (instrInfos : InstructionMetadata)
    (returnBoolean : GdString) (conditionInverted : Bool) : GdString × Bool :=
  let pred := objectConditionPredicat objectName objInfo arguments instrInfos
  let predicat :=
    if conditionInverted then GenerateNegatedPredicat pred.1 else pred.1
  (str "For each picked object \"" ++ objectName ++ str "\", check " ++
    predicat ++ str ".\n", pred.2)

/-- The predicate built by `GenerateBehaviorCondition` before inversion. -/
def behaviorConditionPredicat (arguments : List GdString)
    (instrInfos : InstructionMetadata) : GdString × Bool :=
  if instrInfos.codeExtraInformation.type = str "number" ∨
      instrInfos.codeExtraInformation.type = str "string" then
    GenerateRelationalOperatorCall instrInfos arguments [] 2
  else
    (str "(" ++ GenerateArgumentsList arguments 2 ++ str ")", false)

/-- `EventsCodeGenerator::GenerateBehaviorCondition` (the unused behavior
metadata argument is omitted): the negation is applied whenever the
inverted flag is set, with no `conditionInverted` check. -/
def GenerateBehaviorCondition (objectName behaviorName : GdString)
    (arguments : List GdString) (instrInfos : InstructionMetadata)
    (returnBoolean : GdString) (conditionInverted : Bool) : GdString × Bool :=
  let pred := behaviorConditionPredicat arguments instrInfos
  let predicat :=
    if conditionInverted then GenerateNegatedPredicat pred.1 else pred.1
  (str "For each picked object \"" ++ objectName ++ str "\", check " ++
    predicat ++ str " for behavior \"" ++ behaviorName ++ str "\".\n", pred.2)

/-- Metadata of a non-number condition that declares a `conditionInverted`
parameter. -/
def invParamInstr : InstructionMetadata :=
  ⟨[⟨str "object", []⟩, ⟨str "conditionInverted", []⟩],
    ⟨str "boolean", AccessType.Reference, str "F", [], []⟩⟩

/-- One entry of a conditions list as the list compiler sees it: the
instruction's type token and the code `GenerateConditionCode` produced for
it (the per-condition machinery is translated separately; the list-level
claim only reads its output). -/
structure CondEntry where
  type : GdString
  code : GdString
deriving DecidableEq, Inhabited

/-- The flag name `"condition" + i + "IsTrue"`. -/
def condFlagName (i : Nat) : GdString :=
  str "condition" ++ (Nat.repr i).toList ++ str "IsTrue"

/-- `EventsCodeGenerator::GenerateConditionsListCode`. The virtual
`GenerateBooleanInitializationToFalse` hook is a parameter, and the
`maxConditionsListsSize` diagnostic update is elided. -/
def GenerateConditionsListCode (boolInit : GdString → GdString)
    (conditions : List CondEntry) : GdString :=
  let init :=
    (List.range conditions.length).foldl
      (fun acc i => acc ++ boolInit (condFlagName i)) []
  (List.range conditions.length).foldl
    (fun acc cId =>
      let conditionCode := (conditions.getD cId default).code
      if (conditions.getD cId default).type ≠ [] then
        let guarded :=
          (List.range cId).foldl
            (fun acc2 i =>
              acc2 ++ (if i = 0 then str "if ( " else str " && ") ++
                condFlagName i ++ (if i = cId - 1 then str ") " else []))
            acc
        guarded ++ str "\x7b\n" ++ conditionCode ++ str "\x7d"
      else acc ++ str "/* Skipped condition (empty type) */")
    init

/-- The guard the spec requires before condition `cId`: nothing for index
0, otherwise one `if` over the conjunction of exactly the flags
`0..cId-1`. -/
def specGuard (cId : Nat) : GdString :=
  if cId = 0 then []
  else
    str "if ( " ++
      List.intercalate (str " && ") ((List.range cId).map condFlagName) ++
      str ") "

theorem findAndReplace_single (a : Char) (rep : GdString) :
    ∀ l : GdString,
      findAndReplace [a] rep l = replaceEach (fun c => if c = a then rep else [c]) l := by
  intro l
  induction l with
  | nil => simp [findAndReplace, replaceEach]
  | cons c t ih =>
      rw [findAndReplace, replaceEach]
      by_cases h : c = a
      · subst h
        simp [List.isPrefixOf, ih]
      · have : ¬ List.isPrefixOf [a] (c :: t) := by
          simp [List.isPrefixOf]
          intro h'
          exact h h'.symm
        simp [this, h, ih]

theorem replaceEach_append (e : Char → GdString) (x y : GdString) :
    replaceEach e (x ++ y) = replaceEach e x ++ replaceEach e y := by
  induction x with
  | nil => simp [replaceEach]
  | cons c t ih => simp [replaceEach, ih]

theorem escChar_decompose (c : Char) :
    replaceEach escQuote (replaceEach escLf (replaceEach escCr (escBackslash c))) =
      escChar c := by
  by_cases h1 : c = '\\'
  · subst h1; rfl
  · by_cases h2 : c = '\r'
    · subst h2; rfl
    · by_cases h3 : c = '\n'
      · subst h3; rfl
      · by_cases h4 : c = '"'
        · subst h4; rfl
        · simp [escBackslash, escCr, escLf, escQuote, escChar, replaceEach,
            h1, h2, h3, h4]

theorem ConvertToString_eq_replaceEach (s : GdString) :
    ConvertToString s = replaceEach escChar s := by
  have h : ∀ t : GdString,
      replaceEach escQuote (replaceEach escLf (replaceEach escCr
        (replaceEach escBackslash t))) = replaceEach escChar t := by
    intro t
    induction t with
    | nil => rfl
    | cons c t ih =>
        simp only [replaceEach, replaceEach_append]
        rw [ih, escChar_decompose]
  unfold ConvertToString
  rw [show str "\\" = ['\\'] from rfl, show str "\r" = ['\r'] from rfl,
    show str "\n" = ['\n'] from rfl, show str "\"" = ['"'] from rfl]
  rw [findAndReplace_single, findAndReplace_single, findAndReplace_single,
    findAndReplace_single]
  exact h s

theorem escapedOk_escChar_append (c : Char) (l : GdString) :
    escapedOk (escChar c ++ l) = escapedOk l := by
  by_cases h1 : c = '\\'
  · subst h1
    cases l with
    | nil => rfl
    | cons d t => simp [escChar, escapedOk, str]
  · by_cases h2 : c = '\r'
    · subst h2
      cases l with
      | nil => rfl
      | cons d t => simp [escChar, escapedOk, str]
    · by_cases h3 : c = '\n'
      · subst h3
        cases l with
        | nil => rfl
        | cons d t => simp [escChar, escapedOk, str]
      · by_cases h4 : c = '"'
        · subst h4
          cases l with
          | nil => rfl
          | cons d t => simp [escChar, escapedOk, str]
        · cases l with
          | nil => simp [escChar, escapedOk, h1, h2, h3, h4]
          | cons d t => simp [escChar, escapedOk, h1, h2, h3, h4]

/-- C9: escaping handles backslash first, so `a\b"c` becomes `a\\b\"c`, and
every output of `ConvertToString` has no unescaped double quote and no bare
backslash. -/
theorem C9_convertToString_escaping :
    ConvertToString (str "a\\b\"c") = str "a\\\\b\\\"c" ∧
      ∀ s : GdString, escapedOk (ConvertToString s) = true := by
  constructor
  · rw [ConvertToString_eq_replaceEach]
    decide
  · intro s
    rw [ConvertToString_eq_replaceEach]
    induction s with
    | nil => rfl
    | cons c t ih => rw [replaceEach, escapedOk_escChar_append]; exact ih

theorem foldl_guard_eq_filter_map {α : Type} (P : Nat → Prop) [DecidablePred P]
    (f : Nat → GdString) (g : α → GdString → α) :
    ∀ (idxs : List Nat) (a : α),
      idxs.foldl (fun acc i => if P i then g acc (f i) else acc) a =
        ((idxs.filter (fun i => decide (P i))).map f).foldl g a := by
  intro idxs
  induction idxs with
  | nil => intro a; rfl
  | cons i t ih =>
      intro a
      by_cases h : P i
      · simp [List.filter_cons, h, ih]
      · simp [List.filter_cons, h, ih]

theorem foldl_join_of_ne_nil :
    ∀ (t : List GdString) (acc : GdString), acc ≠ [] →
      t.foldl (fun acc s => (if acc = [] then acc else acc ++ str ", ") ++ s) acc =
        acc ++ (t.map (fun s => str ", " ++ s)).flatten := by
  intro t
  induction t with
  | nil => intro acc h; simp
  | cons s t ih =>
      intro acc h
      simp only [List.foldl_cons, if_neg h, List.map_cons, List.flatten_cons]
      rw [ih]
      · simp
      · intro hcontra
        rw [List.append_assoc, List.append_eq_nil] at hcontra
        exact h hcontra.1

theorem intercalate_cons_flatten (sep : GdString) :
    ∀ (t : List GdString) (s : GdString),
      List.intercalate sep (s :: t) = s ++ (t.map (fun x => sep ++ x)).flatten := by
  intro t
  induction t with
  | nil => intro s; simp [List.intercalate, List.intersperse]
  | cons x t ih =>
      intro s
      have h1 : List.intercalate sep (s :: x :: t) =
          s ++ sep ++ List.intercalate sep (x :: t) := by
        simp [List.intercalate, List.intersperse]
      rw [h1, ih]
      simp

theorem foldl_join_eq_intercalate :
    ∀ l : List GdString, (∀ s ∈ l, s ≠ []) →
      l.foldl (fun acc s => (if acc = [] then acc else acc ++ str ", ") ++ s) [] =
        List.intercalate (str ", ") l := by
  intro l hl
  cases l with
  | nil => rfl
  | cons s t =>
      have hs : s ≠ [] := hl s (by simp)
      have hstart :
          List.foldl (fun acc x => (if acc = [] then acc else acc ++ str ", ") ++ x)
              [] (s :: t) =
            List.foldl (fun acc x => (if acc = [] then acc else acc ++ str ", ") ++ x)
              s t := by
        simp
      rw [hstart, foldl_join_of_ne_nil t s hs, intercalate_cons_flatten]

theorem joinArgsSkipping_eq_intercalate (arguments : List GdString)
    (startFrom operatorIndex : Nat)
    (h : ∀ s ∈ selectedArgs arguments startFrom operatorIndex, s ≠ []) :
    joinArgsSkipping arguments startFrom operatorIndex =
      List.intercalate (str ", ") (selectedArgs arguments startFrom operatorIndex) := by
  unfold joinArgsSkipping
  rw [foldl_guard_eq_filter_map
    (fun i => startFrom ≤ i ∧ i ≠ operatorIndex ∧ i ≠ operatorIndex + 1)
    (fun i => arguments.getD i [])
    (fun acc s => (if acc = [] then acc else acc ++ str ", ") ++ s)]
  exact foldl_join_eq_intercalate _ h

theorem stripOperator_length_le (s : GdString) (h : s.length ≤ 2) :
    stripOperator s = s := by
  unfold stripOperator
  rw [if_neg]
  omega

theorem stripOperator_ends (a z : Char) (mid : GdString) (h : mid ≠ []) :
    stripOperator (a :: (mid ++ [z])) = mid := by
  have hlen : (a :: (mid ++ [z])).length = mid.length + 2 := by simp
  have hpos : 1 ≤ mid.length := List.length_pos.mpr h
  unfold stripOperator
  rw [if_pos]
  · have h2 : (a :: (mid ++ [z])).drop 1 = mid ++ [z] := rfl
    rw [h2, hlen]
    have h3 : mid.length + 2 - 1 - 1 = mid.length := by omega
    rw [h3, List.take_left]
  · rw [hlen]
    omega

/-- C5: when the scan over the instruction metadata from the given start
index leaves no value parameter after the operator position, each of the
four call builders sets the error flag and returns the empty string; the
mutator builder does the same when the (stripped) operator token is not in
the instruction's mutator name table. -/
theorem C5_builders_error_cases :
    (∀ (instrInfos : InstructionMetadata) (arguments : List GdString)
        (callStartString : GdString) (startFromArgument : Nat),
        instrInfos.parameters.length ≤
            scanOperatorIndex instrInfos.parameters (str "relationalOperator")
              startFromArgument + 1 →
        GenerateRelationalOperatorCall instrInfos arguments callStartString
            startFromArgument = ([], true)) ∧
    (∀ (instrInfos : InstructionMetadata) (arguments : List GdString)
        (callStartString getterStartString : GdString) (startFromArgument : Nat),
        instrInfos.parameters.length ≤
            scanOperatorIndex instrInfos.parameters (str "operator")
              startFromArgument + 1 →
        GenerateOperatorCall instrInfos arguments callStartString getterStartString
            startFromArgument = ([], true)) ∧
    (∀ (instrInfos : InstructionMetadata) (arguments : List GdString)
        (callStartString : GdString) (startFromArgument : Nat),
        instrInfos.parameters.length ≤
            scanOperatorIndex instrInfos.parameters (str "operator")
              startFromArgument + 1 →
        GenerateCompoundOperatorCall instrInfos arguments callStartString
            startFromArgument = ([], true)) ∧
    (∀ (instrInfos : InstructionMetadata) (arguments : List GdString)
        (callStartString : GdString) (startFromArgument : Nat),
        instrInfos.parameters.length ≤
            scanOperatorIndex instrInfos.parameters (str "operator")
              startFromArgument + 1 →
        GenerateMutatorCall instrInfos arguments callStartString
            startFromArgument = ([], true)) ∧
    (∀ (instrInfos : InstructionMetadata) (arguments : List GdString)
        (callStartString : GdString) (startFromArgument : Nat),
        instrInfos.codeExtraInformation.optionalMutators.find?
            (fun m => m.1 == stripOperator (arguments.getD
              (scanOperatorIndex instrInfos.parameters (str "operator")
                startFromArgument) [])) = none →
        GenerateMutatorCall instrInfos arguments callStartString
            startFromArgument = ([], true)) := by
  refine ⟨?_, ?_, ?_, ?_, ?_⟩
  · intro instrInfos arguments callStartString startFromArgument h
    unfold GenerateRelationalOperatorCall
    rw [if_pos h]
  · intro instrInfos arguments callStartString getterStartString startFromArgument h
    unfold GenerateOperatorCall
    rw [if_pos h]
  · intro instrInfos arguments callStartString startFromArgument h
    unfold GenerateCompoundOperatorCall
    rw [if_pos h]
  · intro instrInfos arguments callStartString startFromArgument h
    unfold GenerateMutatorCall
    rw [if_pos h]
  · intro instrInfos arguments callStartString startFromArgument h
    unfold GenerateMutatorCall
    by_cases hlen : instrInfos.parameters.length ≤
        scanOperatorIndex instrInfos.parameters (str "operator") startFromArgument + 1
    · rw [if_pos hlen]
    · rw [if_neg hlen]
      simp only [h]

/-- C5 witness: concrete metadata with no value parameter after the operator
position, and a concrete operator token absent from the mutator table. -/
theorem C5_builders_error_cases_witness :
    GenerateRelationalOperatorCall ⟨[], default⟩ [] [] 0 = ([], true) ∧
    GenerateOperatorCall ⟨[], default⟩ [] [] [] 0 = ([], true) ∧
    GenerateCompoundOperatorCall ⟨[], default⟩ [] [] 0 = ([], true) ∧
    GenerateMutatorCall ⟨[], default⟩ [] [] 0 = ([], true) ∧
    GenerateMutatorCall emptyMutatorTestInstr [str "x", str "5"] (str "Set") 0 =
      ([], true) := by
  refine ⟨?_, ?_, ?_, ?_, ?_⟩
  · exact C5_builders_error_cases.1 ⟨[], default⟩ [] [] 0 (by decide)
  · exact C5_builders_error_cases.2.1 ⟨[], default⟩ [] [] [] 0 (by decide)
  · exact C5_builders_error_cases.2.2.1 ⟨[], default⟩ [] [] 0 (by decide)
  · exact C5_builders_error_cases.2.2.2.1 ⟨[], default⟩ [] [] 0 (by decide)
  · exact C5_builders_error_cases.2.2.2.2 emptyMutatorTestInstr [str "x", str "5"]
      (str "Set") 0 (by decide)

/-- C10: every call builder uses the compiled operator argument verbatim
when its length is at most two and otherwise removes exactly its first and
last character whatever they are; an unquoted three-character token `abc`
becomes `b` in all four builders. -/
theorem C10_operator_argument_stripping_rule :
    (∀ s : GdString, s.length ≤ 2 → stripOperator s = s) ∧
    (∀ (a z : Char) (mid : GdString), mid ≠ [] →
        stripOperator (a :: (mid ++ [z])) = mid) ∧
    (GenerateRelationalOperatorCall relationalTestInstr [str "abc", str "5"]
        (str "Get") 0).1 = str "Get() b 5" ∧
    (GenerateOperatorCall compoundScenarioInstr [str "abc", str "5"] (str "Set")
        (str "Get") 0).1 = str "Set(Get() b (5))" ∧
    (GenerateCompoundOperatorCall compoundScenarioInstr [str "abc", str "5"]
        (str "Set") 0).1 = str "Set() b (5)" ∧
    (GenerateMutatorCall mutatorTestInstr [str "abc", str "5"] (str "Set") 0).1 =
      str "Set().SetB(5)" := by
  refine ⟨stripOperator_length_le, stripOperator_ends, by decide, by decide,
    by decide, by decide⟩

/-- C10 witness: the stripping rule evaluated on `ab` and on `abc`. -/
theorem C10_operator_argument_stripping_rule_witness :
    stripOperator (str "ab") = str "ab" ∧ stripOperator (str "abc") = str "b" :=
  ⟨C10_operator_argument_stripping_rule.1 (str "ab") (by decide),
    C10_operator_argument_stripping_rule.2.1 'a' 'c' (str "b") (by decide)⟩

/-- C7: the compound builder maps `+`, `-`, `*`, `/` to `+=`, `-=`, `*=`,
`/=`, leaves a literal `=` unchanged, and emits the call start string, the
remaining arguments joined by a comma in parentheses, the mapped operator,
then the value in parentheses; the free number-type compound-access action
with call name `Set`, operator token `+` and value `5` at start index 0
emits `Set() += (5);`. -/
theorem C7_generateCompoundOperatorCall :
    (∀ (instrInfos : InstructionMetadata) (arguments : List GdString)
        (callStartString : GdString) (startFromArgument : Nat),
        scanOperatorIndex instrInfos.parameters (str "operator")
            startFromArgument + 1 < instrInfos.parameters.length →
        (arguments.getD (scanOperatorIndex instrInfos.parameters (str "operator")
            startFromArgument) []).length ≤ 2 →
        (∀ s ∈ selectedArgs arguments startFromArgument
            (scanOperatorIndex instrInfos.parameters (str "operator")
              startFromArgument), s ≠ []) →
        GenerateCompoundOperatorCall instrInfos arguments callStartString
            startFromArgument =
          (callStartString ++ str "(" ++
            List.intercalate (str ", ")
              (selectedArgs arguments startFromArgument
                (scanOperatorIndex instrInfos.parameters (str "operator")
                  startFromArgument)) ++
            str ") " ++
            specCompoundAssignMap
              (arguments.getD (scanOperatorIndex instrInfos.parameters
                (str "operator") startFromArgument) []) ++
            str " (" ++
            arguments.getD (scanOperatorIndex instrInfos.parameters (str "operator")
              startFromArgument + 1) [] ++
            str ")", false)) ∧
    GenerateFreeAction [str "\"+\"", str "5"] compoundScenarioInstr =
      (str "Set() += (5);\n", false) := by
  constructor
  · intro instrInfos arguments callStartString startFromArgument hlt hlen hsel
    unfold GenerateCompoundOperatorCall
    rw [if_neg (by omega)]
    simp only [stripOperator_length_le _ hlen,
      joinArgsSkipping_eq_intercalate _ _ _ hsel, specCompoundAssignMap]
  · decide

/-- C7 witness: the general formula applied to the scenario metadata with an
already unquoted operator token. -/
theorem C7_generateCompoundOperatorCall_witness :
    GenerateCompoundOperatorCall compoundScenarioInstr [str "+", str "5"]
      (str "Set") 0 = (str "Set() += (5)", false) := by
  have h := C7_generateCompoundOperatorCall.1 compoundScenarioInstr
    [str "+", str "5"] (str "Set") 0 (by decide) (by decide) (by decide)
  rw [h]
  decide

/-- C8: the allocator returns an ID absent from the taken set and records
it (so no ID is ever returned twice in a run), the ID is the least free
value at or above the node's base value, and a base value not yet taken -
a node identity seen for the first time - is returned as is. -/
theorem C8_unique_id_allocation :
    ∀ (base : Nat) (taken : Finset Nat),
      (GenerateSingleUsageUniqueIdFor base taken).1 ∉ taken ∧
      (GenerateSingleUsageUniqueIdFor base taken).2 =
        insert (GenerateSingleUsageUniqueIdFor base taken).1 taken ∧
      base ≤ (GenerateSingleUsageUniqueIdFor base taken).1 ∧
      (∀ m, base ≤ m → m ∉ taken →
        (GenerateSingleUsageUniqueIdFor base taken).1 ≤ m) ∧
      (base ∉ taken → (GenerateSingleUsageUniqueIdFor base taken).1 = base) ∧
      (∀ base2 : Nat,
        (GenerateSingleUsageUniqueIdFor base2
            (GenerateSingleUsageUniqueIdFor base taken).2).1 ≠
          (GenerateSingleUsageUniqueIdFor base taken).1) := by
  intro base taken
  have hmain : (GenerateSingleUsageUniqueIdFor base taken).1 =
      base + Nat.find (freeIdExists base taken) := rfl
  have hsnd : (GenerateSingleUsageUniqueIdFor base taken).2 =
      insert (base + Nat.find (freeIdExists base taken)) taken := rfl
  refine ⟨?_, ?_, ?_, ?_, ?_, ?_⟩
  · rw [hmain]
    exact Nat.find_spec (freeIdExists base taken)
  · rw [hsnd, hmain]
  · rw [hmain]
    omega
  · intro m hbm hmnot
    rw [hmain]
    have hfm : Nat.find (freeIdExists base taken) ≤ m - base := by
      apply Nat.find_min'
      have heq : base + (m - base) = m := by omega
      rw [heq]
      exact hmnot
    omega
  · intro hb
    rw [hmain]
    have h0 : Nat.find (freeIdExists base taken) = 0 := by
      rw [Nat.find_eq_zero]
      simpa using hb
    omega
  · intro base2
    have hnot : (GenerateSingleUsageUniqueIdFor base2
        (GenerateSingleUsageUniqueIdFor base taken).2).1 ∉
        (GenerateSingleUsageUniqueIdFor base taken).2 :=
      Nat.find_spec (freeIdExists base2 (GenerateSingleUsageUniqueIdFor base taken).2)
    intro heq
    apply hnot
    rw [heq, hsnd, hmain]
    exact Finset.mem_insert_self _ _

/-- C8 witness: allocating for a fresh node identity from an empty taken
set returns the base value itself. -/
theorem C8_unique_id_allocation_witness :
    (3 : Nat) ∉ (∅ : Finset Nat) ∧
      (GenerateSingleUsageUniqueIdFor 3 ∅).1 = 3 :=
  ⟨by decide, (C8_unique_id_allocation 3 ∅).2.2.2.2.1 (by decide)⟩

/-- C2 counterexample: `G` names a group in both scopes (locally with
member list `[A]`), yet the expansion is the global group's `[B]`, not the
local `[A]` the claim requires. -/
theorem C2_expand_counterexample :
    groupsHas cexLocalContainer (str "G") = true ∧
    groupsGetAllObjectsNames cexLocalContainer (str "G") = [str "A"] ∧
    ExpandObjectsName cexGlobalContainer cexLocalContainer (str "G") ⟨[]⟩ =
      [str "B"] ∧
    [str "B"] ≠ [str "A"] := by
  refine ⟨by decide, by decide, by decide, by decide⟩

/-- C2 amended: when the name names a group, the global (project) registry
is consulted before the local (layout) one - a name defined in both scopes
expands from the global group's member list - and a name naming no group in
either registry is treated as a literal object name; collapse and existence
filtering then apply. -/
theorem C2_expand_group_precedence :
    ∀ (globalC localC : ObjectsContainer) (name : GdString)
      (ctx : EventsCodeGenerationContext),
      (groupsHas globalC name = true →
        ExpandObjectsName globalC localC name ctx =
          expandPostprocess globalC localC ctx
            (groupsGetAllObjectsNames globalC name)) ∧
      (groupsHas globalC name = false → groupsHas localC name = true →
        ExpandObjectsName globalC localC name ctx =
          expandPostprocess globalC localC ctx
            (groupsGetAllObjectsNames localC name)) ∧
      (groupsHas globalC name = false → groupsHas localC name = false →
        ExpandObjectsName globalC localC name ctx =
          expandPostprocess globalC localC ctx [name]) := by
  intro globalC localC name ctx
  refine ⟨?_, ?_, ?_⟩
  · intro h
    simp [ExpandObjectsName, expandPostprocess, h]
  · intro h1 h2
    simp [ExpandObjectsName, expandPostprocess, h1, h2]
  · intro h1 h2
    simp [ExpandObjectsName, expandPostprocess, h1, h2]

/-- C2 witness: the amended precedence rule applied to the concrete
two-scope setup. -/
theorem C2_expand_group_precedence_witness :
    ExpandObjectsName cexGlobalContainer cexLocalContainer (str "G") ⟨[]⟩ =
      expandPostprocess cexGlobalContainer cexLocalContainer ⟨[]⟩
        (groupsGetAllObjectsNames cexGlobalContainer (str "G")) :=
  (C2_expand_group_precedence cexGlobalContainer cexLocalContainer (str "G") ⟨[]⟩).1
    (by decide)

/-- C3 counterexample: the current object `X` is a member of group `G`, but
`X` is not a known object, so the expansion is empty rather than `[X]`. -/
theorem C3_collapse_counterexample :
    (str "X") ∈ (⟨str "G", [str "X"]⟩ : ObjectGroup).members ∧
    ExpandObjectsName ⟨[], []⟩ ⟨[], [⟨str "G", [str "X"]⟩]⟩ (str "G")
      ⟨str "X"⟩ = [] ∧
    ([] : List GdString) ≠ [str "X"] := by
  refine ⟨by decide, by decide, by decide⟩

/-- C3 amended: for every context whose current object is among the member
list the group name resolves to (global registry first), and provided that
member names an existing object in the local-or-global registry, the
expansion collapses to exactly that member. -/
theorem C3_collapse_to_current_object :
    ∀ (globalC localC : ObjectsContainer) (name m : GdString)
      (ctx : EventsCodeGenerationContext),
      ctx.currentObject = m →
      m ∈ resolveGroupMembers globalC localC name →
      (hasObjectNamed localC m || hasObjectNamed globalC m) = true →
      ExpandObjectsName globalC localC name ctx = [m] := by
  intro globalC localC name m ctx hctx hmem hexists
  subst hctx
  unfold ExpandObjectsName
  have hres : (if groupsHas globalC name then groupsGetAllObjectsNames globalC name
      else if groupsHas localC name then groupsGetAllObjectsNames localC name
      else [name]) = resolveGroupMembers globalC localC name := rfl
  simp only [hres, if_pos hmem]
  simp [List.filter, hexists]

/-- C3 witness: the amended collapse rule on a concrete group and an
existing current object. -/
theorem C3_collapse_to_current_object_witness :
    ExpandObjectsName ⟨[(str "X", str "type")], []⟩
      ⟨[], [⟨str "G", [str "X"]⟩]⟩ (str "G") ⟨str "X"⟩ = [str "X"] :=
  C3_collapse_to_current_object ⟨[(str "X", str "type")], []⟩
    ⟨[], [⟨str "G", [str "X"]⟩]⟩ (str "G") (str "X") ⟨str "X"⟩ rfl
    (by decide) (by decide)

theorem ite_relational_flip (t : GdString) :
    (if t ≠ str "==" ∧ t ≠ str "<" ∧ t ≠ str ">" ∧ t ≠ str "<=" ∧
        t ≠ str ">=" ∧ t ≠ str "!=" then str "==" else t) =
      (if t = str "==" ∨ t = str "<" ∨ t = str ">" ∨ t = str "<=" ∨
          t = str ">=" ∨ t = str "!=" then t else str "==") := by
  by_cases h : t = str "==" ∨ t = str "<" ∨ t = str ">" ∨ t = str "<=" ∨
      t = str ">=" ∨ t = str "!="
  · rw [if_pos h, if_neg]
    tauto
  · rw [if_neg h, if_pos]
    tauto

theorem ite_operator_flip (t : GdString) :
    (if t ≠ str "=" ∧ t ≠ str "+" ∧ t ≠ str "-" ∧ t ≠ str "/" ∧
        t ≠ str "*" then str "=" else t) =
      (if t = str "=" ∨ t = str "+" ∨ t = str "-" ∨ t = str "/" ∨
          t = str "*" then t else str "=") := by
  by_cases h : t = str "=" ∨ t = str "+" ∨ t = str "-" ∨ t = str "/" ∨
      t = str "*"
  · rw [if_pos h, if_neg]
    tauto
  · rw [if_neg h, if_pos]
    tauto

/-- C4 counterexample: a quoted relational token `"<="` is not stripped;
it fails validation and falls back to `==`, so the emitted literal is
`"=="`, not the `"<="` the claimed stripping would give. -/
theorem C4_no_quote_stripping_counterexample :
    GenerateParameterCodes testCallbacks (str "\"<=\"")
        ⟨str "relationalOperator", []⟩ [] [] = str "\"==\"" ∧
      str "\"==\"" ≠ str "\"<=\"" := by
  refine ⟨by decide, by decide⟩

/-- C4 amended: for a `relationalOperator` parameter the raw token is used
without quote stripping, `=` is normalized to `==`, exactly the closed set
is accepted, anything else falls back to `==`, and the result is wrapped as
a quoted literal; an `operator` parameter likewise accepts exactly its
closed set, falls back to `=`, and is wrapped as a quoted literal. -/
theorem C4_operator_token_normalization :
    ∀ (cb : GenCallbacks) (parameter lastObjectName si : GdString)
      (supp : List (GdString × GdString)),
      cb.isExpression (str "number") (str "relationalOperator") = false →
      cb.isExpression (str "string") (str "relationalOperator") = false →
      cb.isExpression (str "variable") (str "relationalOperator") = false →
      cb.isObject (str "relationalOperator") = false →
      cb.isExpression (str "number") (str "operator") = false →
      cb.isExpression (str "string") (str "operator") = false →
      cb.isExpression (str "variable") (str "operator") = false →
      cb.isObject (str "operator") = false →
      GenerateParameterCodes cb parameter ⟨str "relationalOperator", si⟩
          lastObjectName supp =
        str "\"" ++ specRelationalNormalize parameter ++ str "\"" ∧
      GenerateParameterCodes cb parameter ⟨str "operator", si⟩
          lastObjectName supp =
        str "\"" ++ specOperatorNormalize parameter ++ str "\"" := by
  intro cb parameter lastObjectName si supp h1 h2 h3 h4 h5 h6 h7 h8
  constructor
  · simp only [GenerateParameterCodes, h1, h2, h3, h4, Bool.false_eq_true,
      if_false, if_pos rfl]
    rw [ite_relational_flip]
    rfl
  · have hne : ¬ (str "operator" = str "relationalOperator") := by decide
    simp only [GenerateParameterCodes, h5, h6, h7, h8, Bool.false_eq_true,
      if_false, if_neg hne, if_pos rfl]
    rw [ite_operator_flip]
    rfl

/-- C4 witness: the amended normalization applied to the valid token `<`
and to the operator token `+`. -/
theorem C4_operator_token_normalization_witness :
    GenerateParameterCodes testCallbacks (str "<")
        ⟨str "relationalOperator", []⟩ [] [] =
      str "\"" ++ specRelationalNormalize (str "<") ++ str "\"" ∧
    GenerateParameterCodes testCallbacks (str "+") ⟨str "operator", []⟩ [] [] =
      str "\"" ++ specOperatorNormalize (str "+") ++ str "\"" :=
  ⟨(C4_operator_token_normalization testCallbacks (str "<") [] [] [] rfl rfl
      rfl rfl rfl rfl rfl rfl).1,
    (C4_operator_token_normalization testCallbacks (str "+") [] [] [] rfl rfl
      rfl rfl rfl rfl rfl rfl).2⟩

/-- C1 counterexample: for an object condition whose metadata declares a
`conditionInverted` parameter, the inverted flag still changes the output,
i.e. the outer negation is applied although the claim says it must not be. -/
theorem C1_inversion_counterexample :
    (invParamInstr.parameters.any (fun p => p.type == str "conditionInverted")) =
        true ∧
    GenerateObjectCondition (str "o") ⟨str "C"⟩ [str "o", str "x"] invParamInstr
        (str "ret") true ≠
      GenerateObjectCondition (str "o") ⟨str "C"⟩ [str "o", str "x"] invParamInstr
        (str "ret") false := by
  refine ⟨by decide, by decide⟩

/-- C1 amended: only free conditions honour the `conditionInverted`
parameter exemption - with it the inverted output equals the non-inverted
one, without it the predicate is negated exactly once; object and behavior
conditions negate the predicate exactly once whenever the inverted flag is
set, regardless of the metadata. -/
theorem C1_condition_inversion :
    ∀ (arguments : List GdString) (instrInfos : InstructionMetadata)
      (returnBoolean : GdString),
      ((instrInfos.parameters.any (fun p => p.type == str "conditionInverted")) =
          true →
        GenerateFreeCondition arguments instrInfos returnBoolean true =
          GenerateFreeCondition arguments instrInfos returnBoolean false) ∧
      ((instrInfos.parameters.any (fun p => p.type == str "conditionInverted")) =
          false →
        (GenerateFreeCondition arguments instrInfos returnBoolean false).1 =
            returnBoolean ++ str " = " ++
              (freeConditionPredicat arguments instrInfos).1 ++ str ";\n" ∧
          (GenerateFreeCondition arguments instrInfos returnBoolean true).1 =
            returnBoolean ++ str " = " ++
              GenerateNegatedPredicat
                (freeConditionPredicat arguments instrInfos).1 ++ str ";\n") ∧
      (∀ (objectName : GdString) (objInfo : ObjectMetadata),
        (GenerateObjectCondition objectName objInfo arguments instrInfos
              returnBoolean false).1 =
            str "For each picked object \"" ++ objectName ++ str "\", check " ++
              (objectConditionPredicat objectName objInfo arguments instrInfos).1 ++
              str ".\n" ∧
          (GenerateObjectCondition objectName objInfo arguments instrInfos
              returnBoolean true).1 =
            str "For each picked object \"" ++ objectName ++ str "\", check " ++
              GenerateNegatedPredicat
                (objectConditionPredicat objectName objInfo arguments
                  instrInfos).1 ++ str ".\n") ∧
      (∀ objectName behaviorName : GdString,
        (GenerateBehaviorCondition objectName behaviorName arguments instrInfos
              returnBoolean false).1 =
            str "For each picked object \"" ++ objectName ++ str "\", check " ++
              (behaviorConditionPredicat arguments instrInfos).1 ++
              str " for behavior \"" ++ behaviorName ++ str "\".\n" ∧
          (GenerateBehaviorCondition objectName behaviorName arguments instrInfos
              returnBoolean true).1 =
            str "For each picked object \"" ++ objectName ++ str "\", check " ++
              GenerateNegatedPredicat
                (behaviorConditionPredicat arguments instrInfos).1 ++
              str " for behavior \"" ++ behaviorName ++ str "\".\n") := by
  intro arguments instrInfos returnBoolean
  refine ⟨?_, ?_, ?_, ?_⟩
  · intro h
    simp [GenerateFreeCondition, h]
  · intro h
    constructor
    · simp [GenerateFreeCondition]
    · simp [GenerateFreeCondition, h]
  · intro objectName objInfo
    constructor
    · simp [GenerateObjectCondition]
    · simp [GenerateObjectCondition]
  · intro objectName behaviorName
    constructor
    · simp [GenerateBehaviorCondition]
    · simp [GenerateBehaviorCondition]

/-- C1 witness: the free-condition exemption applied to the concrete
metadata that declares a `conditionInverted` parameter. -/
theorem C1_condition_inversion_witness :
    GenerateFreeCondition [str "o", str "x"] invParamInstr (str "ret") true =
      GenerateFreeCondition [str "o", str "x"] invParamInstr (str "ret") false :=
  (C1_condition_inversion [str "o", str "x"] invParamInstr (str "ret")).1
    (by decide)

theorem foldl_append_eq_flatten {α : Type} (f : α → GdString) :
    ∀ (l : List α) (acc : GdString),
      l.foldl (fun acc x => acc ++ f x) acc = acc ++ (l.map f).flatten := by
  intro l
  induction l with
  | nil => intro acc; simp
  | cons x t ih =>
      intro acc
      simp only [List.foldl_cons, List.map_cons, List.flatten_cons]
      rw [ih]
      simp

theorem foldl_congr_mem {α β : Type} :
    ∀ (l : List α) (f g : β → α → β) (a : β),
      (∀ b x, x ∈ l → f b x = g b x) → l.foldl f a = l.foldl g a := by
  intro l
  induction l with
  | nil => intro f g a h; rfl
  | cons x t ih =>
      intro f g a h
      simp only [List.foldl_cons]
      rw [h a x (by simp)]
      exact ih f g (g a x) (fun b y hy => h b y (by simp [hy]))

theorem intercalate_cons_cons (sep a b : GdString) (r : List GdString) :
    List.intercalate sep (a :: b :: r) = a ++ sep ++ List.intercalate sep (b :: r) := by
  simp [List.intercalate, List.intersperse]

theorem intercalate_append_single (sep : GdString) :
    ∀ (l : List GdString) (x : GdString), l ≠ [] →
      List.intercalate sep (l ++ [x]) = List.intercalate sep l ++ sep ++ x := by
  intro l
  induction l with
  | nil => intro x h; exact absurd rfl h
  | cons a t ih =>
      intro x h
      cases t with
      | nil => simp [List.intercalate, List.intersperse]
      | cons b t2 =>
          have hstep : (a :: b :: t2) ++ [x] = a :: b :: (t2 ++ [x]) := by simp
          rw [hstep, intercalate_cons_cons]
          have hbt : (b :: t2) ++ [x] = b :: (t2 ++ [x]) := by simp
          rw [← hbt, ih x (by simp), intercalate_cons_cons]
          simp

theorem guardOpen_eq :
    ∀ (n : Nat), 1 ≤ n → ∀ (acc : GdString),
      (List.range n).foldl
          (fun acc2 i =>
            acc2 ++ (if i = 0 then str "if ( " else str " && ") ++ condFlagName i)
          acc =
        acc ++ str "if ( " ++
          List.intercalate (str " && ") ((List.range n).map condFlagName) := by
  intro n
  induction n with
  | zero => intro h; omega
  | succ n ih =>
      intro _ acc
      cases Nat.eq_zero_or_pos n with
      | inl h0 =>
          subst h0
          simp [List.range_succ, List.intercalate, List.intersperse]
      | inr hpos =>
          rw [List.range_succ, List.foldl_append, ih hpos acc]
          simp only [List.foldl_cons, List.foldl_nil]
          rw [if_neg (by omega : ¬ n = 0)]
          rw [List.map_append, List.map_cons, List.map_nil,
            intercalate_append_single _ _ _ (by
              intro hcontra
              have hlen := congrArg List.length hcontra
              simp at hlen
              omega)]
          simp

theorem guardLoop_eq_specGuard (cId : Nat) (acc : GdString) :
    (List.range cId).foldl
        (fun acc2 i =>
          acc2 ++ (if i = 0 then str "if ( " else str " && ") ++ condFlagName i ++
            (if i = cId - 1 then str ") " else []))
        acc =
      acc ++ specGuard cId := by
  cases cId with
  | zero => simp [specGuard]
  | succ n =>
      rw [List.range_succ, List.foldl_append]
      have hinner :
          (List.range n).foldl
              (fun acc2 i =>
                acc2 ++ (if i = 0 then str "if ( " else str " && ") ++
                  condFlagName i ++ (if i = n + 1 - 1 then str ") " else []))
              acc =
            (List.range n).foldl
              (fun acc2 i =>
                acc2 ++ (if i = 0 then str "if ( " else str " && ") ++
                  condFlagName i)
              acc := by
        apply foldl_congr_mem
        intro b x hx
        have hlt : x < n := List.mem_range.mp hx
        rw [if_neg (by omega : ¬ x = n + 1 - 1)]
        simp
      rw [hinner]
      cases Nat.eq_zero_or_pos n with
      | inl h0 =>
          subst h0
          simp [specGuard, List.range_succ, List.intercalate, List.intersperse]
      | inr hpos =>
          rw [guardOpen_eq n hpos acc]
          simp only [List.foldl_cons, List.foldl_nil]
          rw [if_neg (by omega : ¬ n = 0), if_pos (by omega : n = n + 1 - 1)]
          unfold specGuard
          rw [if_neg (by omega : ¬ n + 1 = 0)]
          rw [List.range_succ, List.map_append, List.map_cons, List.map_nil,
            intercalate_append_single _ _ _ (by
              intro hcontra
              have hlen := congrArg List.length hcontra
              simp at hlen
              omega)]
          simp

theorem guardLoop_eq_specGuard_assoc (cId : Nat) (acc : GdString) :
    (List.range cId).foldl
        (fun acc2 i =>
          acc2 ++ ((if i = 0 then str "if ( " else str " && ") ++
            (condFlagName i ++ (if i = cId - 1 then str ") " else []))))
        acc =
      acc ++ specGuard cId := by
  rw [← guardLoop_eq_specGuard cId acc]
  apply foldl_congr_mem
  intro b x _
  simp [List.append_assoc]

/-- C6: the conditions-list compiler first initializes every flag `k < n`
to false, then emits each non-empty-type condition's code wrapped in a
guard over the conjunction of exactly the flags `0..i-1`, condition 0
being unconditional; empty-type conditions leave a skip marker. -/
theorem C6_conditions_short_circuit_chain :
    ∀ (boolInit : GdString → GdString) (conditions : List CondEntry),
      GenerateConditionsListCode boolInit conditions =
        ((List.range conditions.length).map
            (fun i => boolInit (condFlagName i))).flatten ++
          ((List.range conditions.length).map
              (fun cId =>
                if (conditions.getD cId default).type ≠ [] then
                  specGuard cId ++ str "\x7b\n" ++
                    (conditions.getD cId default).code ++ str "\x7d"
                else str "/* Skipped condition (empty type) */")).flatten := by
  intro boolInit conditions
  unfold GenerateConditionsListCode
  rw [foldl_append_eq_flatten (fun i => boolInit (condFlagName i))
    (List.range conditions.length) []]
  rw [List.nil_append]
  rw [foldl_congr_mem (List.range conditions.length) _
    (fun acc cId =>
      acc ++
        (if (conditions.getD cId default).type ≠ [] then
          specGuard cId ++ str "\x7b\n" ++ (conditions.getD cId default).code ++
            str "\x7d"
        else str "/* Skipped condition (empty type) */"))
    _ ?_]
  · rw [foldl_append_eq_flatten]
  · intro b cId _
    by_cases htype : (conditions[cId]?.getD default).type = []
    · simp [htype]
    · simp [htype, guardLoop_eq_specGuard_assoc, List.append_assoc]
